import Mathlib

/-!
Shallow embedding of the AirlineDB repository (src/airline_database.py,
src/database_queries.py) and verification of its specification claims.

Tables are lists of records; SQL joins are list comprehensions with SQLite
semantics (a `LEFT JOIN` producing a `none` row when no right row matches,
`col = ?` in a `WHERE` clause being falsy when `col` is NULL); Python
optional parameters are `Option Val` with Python truthiness deciding whether
a criterion is appended to the WHERE clause, exactly as the `if param:`
guards in the source do.
-/

/-- A Python value passed as an optional argument: the source passes strings
(and integers for schedule IDs); Python truthiness distinguishes `""`/`0`
from other values. -/
inductive Val where
  | vStr : String → Val
  | vInt : Int → Val
deriving DecidableEq

/-- Python truthiness of a `Val` (`""` and `0` are falsy). -/
def valTruthy : Val → Bool
  | .vStr s => s != ""
  | .vInt n => n != 0

/-- Python truthiness of an optional argument (`None` is falsy). -/
def pyTruthy : Option Val → Bool
  | none => false
  | some v => valTruthy v

/-- SQLite comparison of a bound parameter against a TEXT column value:
text equals text, an integer parameter never equals a TEXT value. -/
def valEqStr : Val → String → Bool
  | .vStr s, t => s == t
  | .vInt _, _ => false

/-- SQLite comparison of a bound parameter against a nullable TEXT column:
`col = ?` is falsy when `col` is NULL. -/
def valEqOptStr (v : Val) : Option String → Bool
  | some t => valEqStr v t
  | none => false

/-- SQLite comparison of a bound parameter against an INTEGER column value. -/
def valEqInt : Val → Int → Bool
  | .vInt n, m => n == m
  | .vStr _, _ => false

/-- The TEXT rendering of a parameter stored into a TEXT column. -/
def valToStr : Val → String
  | .vStr s => s
  | .vInt n => toString n

/-- Python `str.upper()` applied by modify_destination to the code. -/
def valUpper : Val → Val
  | .vStr s => .vStr s.toUpper
  | .vInt n => .vInt n

/-- A row of d_pilot (airline_database.py, table_schema_pilot). -/
structure Pilot where
  pilot_ID : String
  first_name : String
  last_name : String
  licence_number : String
  licence_expiry : String
  night_flag : Int
deriving DecidableEq

/-- A row of d_destination (airline_database.py, table_schema_destination). -/
structure Destination where
  destination_code : String
  airport_name : String
  city : String
  country : String
deriving DecidableEq

/-- A row of d_flight (airline_database.py, table_schema_flight). -/
structure Flight where
  flight_ID : Int
  flight_number : String
  departure_destination_code : String
  arrival_destination_code : String
  scheduled_departure_time : String
  scheduled_arrival_time : String
deriving DecidableEq

/-- A row of f_schedule (airline_database.py, table_schema_schedule);
actual times and pilot_ID are the three nullable columns. -/
structure Schedule where
  schedule_ID : Int
  departure_date : String
  actual_departure_time : Option String
  actual_arrival_time : Option String
  flight_ID : Int
  pilot_ID : Option String
  status : String
deriving DecidableEq

/-- The database state: the four tables of flight.db. -/
structure DB where
  d_pilot : List Pilot
  d_destination : List Destination
  d_flight : List Flight
  f_schedule : List Schedule
deriving DecidableEq

/-- LEFT JOIN row multiplicity: no matching right row yields a single NULL
row, otherwise one row per match. -/
def leftOption {α : Type} : List α → List (Option α)
  | [] => [none]
  | x :: xs => (x :: xs).map some

/-- The joined tuple ranged over by the fetch_flights query
(database_queries.py lines 50-61). -/
structure FlightJoin where
  df : Flight
  fs : Option Schedule
  dd1 : Option Destination
  dd2 : Option Destination
  dp : Option Pilot
deriving DecidableEq

/-- Destination rows matching a code (join on destination_code). -/
def destMatches (db : DB) (code : String) : List Destination :=
  db.d_destination.filter (fun d => d.destination_code == code)

/-- The base join of fetch_flights: d_flight LEFT JOIN f_schedule LEFT JOIN
d_destination (twice) LEFT JOIN d_pilot; `fs.pilot_ID = dp.pilot_ID` never
matches when `fs` (or its pilot) is NULL. -/
def flightJoinRows (db : DB) : List FlightJoin :=
  db.d_flight.flatMap (fun df =>
    (leftOption (db.f_schedule.filter (fun fs => fs.flight_ID == df.flight_ID))).flatMap (fun fs =>
      (leftOption (destMatches db df.departure_destination_code)).flatMap (fun dd1 =>
        (leftOption (destMatches db df.arrival_destination_code)).flatMap (fun dd2 =>
          (leftOption (db.d_pilot.filter (fun p =>
            match fs with
            | some s =>
              match s.pilot_ID with
              | some pid => p.pilot_ID == pid
              | none => false
            | none => false))).map (fun dp => ⟨df, fs, dd1, dd2, dp⟩)))))

/-- One element of the composed WHERE clause of fetch_flights. -/
inductive FlightCrit where
  | byNumber : Val → FlightCrit
  | byDepCity : Val → FlightCrit
  | byArrCity : Val → FlightCrit
  | byDate : Val → FlightCrit
  | byStatus : Val → FlightCrit
deriving DecidableEq

/-- The `if param:` guard of the source: a criterion is appended exactly when
the optional argument is truthy. -/
def addCrit {α : Type} (o : Option Val) (mk : Val → α) : List α :=
  match o with
  | some v => if valTruthy v then [mk v] else []
  | none => []

/-- The WHERE clause of fetch_flights as composed by the five `if` guards
(database_queries.py lines 69-87), in source order. -/
def flightWhere (fn dc ac dd st : Option Val) : List FlightCrit :=
  addCrit fn .byNumber ++ addCrit dc .byDepCity ++ addCrit ac .byArrCity ++
    addCrit dd .byDate ++ addCrit st .byStatus

/-- SQL evaluation of one fetch_flights criterion over a joined row. -/
def evalFlightCrit : FlightCrit → FlightJoin → Bool
  | .byNumber v, j => valEqStr v j.df.flight_number
  | .byDepCity v, j => valEqOptStr v (j.dd1.map (fun d => d.city))
  | .byArrCity v, j => valEqOptStr v (j.dd2.map (fun d => d.city))
  | .byDate v, j => valEqOptStr v (j.fs.map (fun s => s.departure_date))
  | .byStatus v, j => valEqOptStr v (j.fs.map (fun s => s.status))

/-- A result row of fetch_flights (SELECT list, lines 51-53 of the query). -/
structure FlightRow where
  flight_number : String
  dep_airport : Option String
  arr_airport : Option String
  sched_dep : String
  sched_arr : String
  departure_date : Option String
  pilot_ID : Option String
  status : Option String
deriving DecidableEq

/-- Projection of a joined tuple onto the fetch_flights SELECT list. -/
def projFlight (j : FlightJoin) : FlightRow :=
  ⟨j.df.flight_number, j.dd1.map (fun d => d.airport_name),
    j.dd2.map (fun d => d.airport_name), j.df.scheduled_departure_time,
    j.df.scheduled_arrival_time, j.fs.map (fun s => s.departure_date),
    j.dp.map (fun p => p.pilot_ID), j.fs.map (fun s => s.status)⟩

/-- SQLite ordering on a nullable TEXT sort key: NULL sorts below every
value, values compare as strings. -/
def optLe : Option String → Option String → Bool
  | none, _ => true
  | some _, none => false
  | some s, some t => decide (s ≤ t)

/-- The ORDER BY key of fetch_flights: fs.departure_date (NULL when the
flight has no schedule instance). -/
def jKey (j : FlightJoin) : Option String :=
  j.fs.map (fun s => s.departure_date)

/-- The `ORDER BY fs.departure_date DESC` relation on joined rows. -/
def flightOrd (a b : FlightJoin) : Prop :=
  optLe (jKey b) (jKey a) = true

instance : DecidableRel flightOrd := fun _ _ => instDecidableEqBool _ _

/-- fetch_flights (database_queries.py lines 36-112): compose the WHERE
clause from the truthy arguments, filter the base join, sort descending by
departure date, project onto the SELECT list.  The source appends
"ORDER BY fs.departure_date DESC" with no leading space, yielding text such
as "fs.status = ?ORDER BY ..."; SQLite tokenises the bare "?" parameter and
then the ORDER keyword, so the clause still applies on every filter path. -/
def fetchFlights (db : DB) (flight_number departure_city arrival_city
    departure_date flight_status : Option Val) : List FlightRow :=
  ((flightJoinRows db).filter (fun j =>
      (flightWhere flight_number departure_city arrival_city departure_date
        flight_status).all (fun c => evalFlightCrit c j))
    |> List.insertionSort flightOrd).map projFlight

/-- The joined tuple ranged over by the fetch_pilots query
(database_queries.py lines 225-234); all joins are inner. -/
structure PilotJoin where
  fs : Schedule
  dp : Pilot
  df : Flight
  dd1 : Destination
  dd2 : Destination
deriving DecidableEq

/-- The base join of fetch_pilots: f_schedule JOIN d_pilot JOIN d_flight
JOIN d_destination (twice); a NULL fs.pilot_ID matches no pilot. -/
def pilotJoinRows (db : DB) : List PilotJoin :=
  db.f_schedule.flatMap (fun fs =>
    (db.d_pilot.filter (fun p =>
        match fs.pilot_ID with
        | some pid => p.pilot_ID == pid
        | none => false)).flatMap (fun dp =>
      (db.d_flight.filter (fun f => f.flight_ID == fs.flight_ID)).flatMap (fun df =>
        (destMatches db df.departure_destination_code).flatMap (fun dd1 =>
          (destMatches db df.arrival_destination_code).map (fun dd2 =>
            ⟨fs, dp, df, dd1, dd2⟩)))))

/-- One element of the composed WHERE clause of fetch_pilots. -/
inductive PilotCrit where
  | byPilot : Val → PilotCrit
  | byFirst : Val → PilotCrit
  | byLast : Val → PilotCrit
deriving DecidableEq

/-- The WHERE clause of fetch_pilots (lines 243-254), in source order. -/
def pilotWhere (pid fn ln : Option Val) : List PilotCrit :=
  addCrit pid .byPilot ++ addCrit fn .byFirst ++ addCrit ln .byLast

/-- SQL evaluation of one fetch_pilots criterion over a joined row. -/
def evalPilotCrit : PilotCrit → PilotJoin → Bool
  | .byPilot v, j => valEqStr v j.dp.pilot_ID
  | .byFirst v, j => valEqStr v j.dp.first_name
  | .byLast v, j => valEqStr v j.dp.last_name

/-- A result row of fetch_pilots (SELECT list, lines 226-228). -/
structure PilotRow where
  schedule_ID : Int
  departure_date : String
  flight_ID : Int
  status : String
  pilot_ID : String
  first_name : String
  last_name : String
  sched_dep : String
  sched_arr : String
  dep_city : String
  arr_city : String
deriving DecidableEq

/-- Projection of a joined tuple onto the fetch_pilots SELECT list. -/
def projPilot (j : PilotJoin) : PilotRow :=
  ⟨j.fs.schedule_ID, j.fs.departure_date, j.fs.flight_ID, j.fs.status,
    j.dp.pilot_ID, j.dp.first_name, j.dp.last_name,
    j.df.scheduled_departure_time, j.df.scheduled_arrival_time,
    j.dd1.city, j.dd2.city⟩

/-- fetch_pilots (database_queries.py lines 214-277): no ORDER BY, the rows
come in join order. -/
def fetchPilots (db : DB) (pilot_id first_name last_name : Option Val) :
    List PilotRow :=
  ((pilotJoinRows db).filter (fun j =>
      (pilotWhere pilot_id first_name last_name).all
        (fun c => evalPilotCrit c j))).map projPilot

/-- One element of the composed WHERE clause of fetch_destinations. -/
inductive DestCrit where
  | byCode : Val → DestCrit
  | byAirport : Val → DestCrit
  | byCity : Val → DestCrit
  | byCountry : Val → DestCrit
deriving DecidableEq

/-- The WHERE clause of fetch_destinations (lines 418-432), in source order. -/
def destWhere (code an ci co : Option Val) : List DestCrit :=
  addCrit code .byCode ++ addCrit an .byAirport ++ addCrit ci .byCity ++
    addCrit co .byCountry

/-- SQL evaluation of one fetch_destinations criterion over a row. -/
def evalDestCrit : DestCrit → Destination → Bool
  | .byCode v, d => valEqStr v d.destination_code
  | .byAirport v, d => valEqStr v d.airport_name
  | .byCity v, d => valEqStr v d.city
  | .byCountry v, d => valEqStr v d.country

/-- fetch_destinations (database_queries.py lines 396-450): a simple filter
over d_destination, no joins, no ORDER BY. -/
def fetchDestinations (db : DB) (destination_code airport_name city country :
    Option Val) : List Destination :=
  db.d_destination.filter (fun d =>
    (destWhere destination_code airport_name city country).all
      (fun c => evalDestCrit c d))

/-- Python str.lower() as applied to the operator's confirmation input
(ASCII case folding, written over the character list so that it reduces in
the kernel). -/
def strLower (s : String) : String :=
  ⟨s.data.map Char.toLower⟩

/-- An observable database-layer action: a connection being opened, a SQL
statement being executed, a connection being closed. -/
inductive Ev where
  | connOpen : Ev
  | exec : Ev
  | connClose : Ev
deriving DecidableEq

/-- The trace of one fetch_* call: open a connection, run one query, close
(the fetch functions have no early return). -/
def fetchTrace : List Ev := [.connOpen, .exec, .connClose]

/-- Outcome of modify_schedule / modify_destination. -/
inductive Out where
  | missingArg : Out
  | notFound : Out
  | failed : Out
  | ok : Out
deriving DecidableEq

/-- The `WHERE schedule_ID = ?` test of the modify_schedule statements. -/
def schedMatches (sid : Val) (r : Schedule) : Bool :=
  valEqInt sid r.schedule_ID

/-- One UPDATE against f_schedule: apply `f` to every row matching the
schedule ID. -/
def updRows (sid : Val) (f : Schedule → Schedule) (rows : List Schedule) :
    List Schedule :=
  rows.map (fun r => if schedMatches sid r then f r else r)

/-- The batch of UPDATE statements modify_schedule issues, in source order
(departure time, arrival time, status; lines 164-189), one per truthy
argument. -/
def msStmts (ndt narr nst : Option Val) : List (Schedule → Schedule) :=
  addCrit ndt (fun v r => { r with actual_departure_time := some (valToStr v) }) ++
    addCrit narr (fun v r => { r with actual_arrival_time := some (valToStr v) }) ++
      addCrit nst (fun v r => { r with status := valToStr v })

/-- Run a batch of statements inside the open transaction: the k-th executed
statement may fail (oracle `fails`), in which case the transaction is never
committed and `none` is returned; the trace records one `exec` per attempted
statement. -/
def runStmts (fails : Nat → Bool) (sid : Val) :
    Nat → List (Schedule → Schedule) → List Schedule →
    Option (List Schedule) × List Ev
  | _, [], rows => (some rows, [])
  | k, s :: rest, rows =>
    if fails k then (none, [.exec])
    else
      let r := runStmts fails sid (k + 1) rest (updRows sid s rows)
      (r.1, .exec :: r.2)

/-- modify_schedule (database_queries.py lines 115-211).  Missing schedule
ID: report and return with no database access.  Unknown schedule ID: report
and return (leaving the connection open, line 154).  Otherwise BEGIN, run
the supplied updates, commit; a statement failure propagates, so the commit
never runs and the committed state is unchanged. -/
def modifySchedule (fails : Nat → Bool) (db : DB)
    (schedule_id new_departure_time new_arrival_time new_status : Option Val) :
    Out × DB × List Ev :=
  match schedule_id with
  | none => (.missingArg, db, [])
  | some sid =>
    match (db.f_schedule.filter (schedMatches sid)).head? with
    | none => (.notFound, db, [.connOpen, .exec])
    | some _ =>
      let run := runStmts fails sid 0
        (msStmts new_departure_time new_arrival_time new_status) db.f_schedule
      match run.1 with
      | none => (.failed, db, [.connOpen, .exec, .exec] ++ run.2)
      | some rows =>
        (.ok, { db with f_schedule := rows },
          [.connOpen, .exec, .exec] ++ run.2 ++ [.exec, .exec, .connClose])

/-- The batch of UPDATE statements modify_destination issues, in source
order (airport name, city, country; lines 482-501), one per truthy
argument. -/
def mdStmts (an ci co : Option Val) : List (Destination → Destination) :=
  addCrit an (fun v d => { d with airport_name := valToStr v }) ++
    addCrit ci (fun v d => { d with city := valToStr v }) ++
      addCrit co (fun v d => { d with country := valToStr v })

/-- modify_destination (database_queries.py lines 453-517): requires the
code (else no database access), uppercases it, shows the pre-state via
fetch_destinations, applies the supplied updates in one transaction with no
existence check, shows the post-state, closes. -/
def modifyDestination (db : DB)
    (destination_code airport_name city country : Option Val) :
    Out × DB × List Ev :=
  match destination_code with
  | none => (.missingArg, db, [])
  | some code =>
    let code := valUpper code
    let stmts := mdStmts airport_name city country
    let rows := stmts.foldl
      (fun rs f => rs.map (fun d =>
        if valEqStr code d.destination_code then f d else d))
      db.d_destination
    (.ok, { db with d_destination := rows },
      [.connOpen] ++ fetchTrace ++ [.exec] ++ stmts.map (fun _ => .exec) ++
        [.exec] ++ fetchTrace ++ [.connClose])

/-- The flight-identity resolution of assign_pilot (flight_id_lookup, lines
336-344): d_flight LEFT JOIN d_destination twice, WHERE flight_number and
both cities match (the WHERE makes the left joins behave as inner joins). -/
def flightLookup (db : DB) (fn dc ac : Val) : List Int :=
  (db.d_flight.flatMap (fun df =>
      (leftOption (destMatches db df.departure_destination_code)).flatMap (fun dd1 =>
        (leftOption (destMatches db df.arrival_destination_code)).map (fun dd2 =>
          (df, dd1, dd2)))))
    |>.filter (fun t =>
        valEqStr fn t.1.flight_number &&
          valEqOptStr dc (t.2.1.map (fun d => d.city)) &&
            valEqOptStr ac (t.2.2.map (fun d => d.city)))
    |>.map (fun t => t.1.flight_ID)

/-- The pilot-assignment UPDATE (lines 365-370): set pilot_id on every
f_schedule row matching the looked-up flight_id and the supplied date. -/
def setPilotRows (pid : Val) (fid : Int) (ddate : Val)
    (rows : List Schedule) : List Schedule :=
  rows.map (fun r =>
    if r.flight_ID == fid && valEqStr ddate r.departure_date then
      { r with pilot_ID := some (valToStr pid) }
    else r)

/-- Outcome of assign_pilot; `crashed` is an uncaught
sqlite3.ProgrammingError propagating out of the function. -/
inductive APOut where
  | missingPilot : APOut
  | incomplete : APOut
  | notFound : APOut
  | assigned : APOut
  | cancelled : APOut
  | noInput : APOut
  | crashed : APOut
deriving DecidableEq

/-- The confirmation loop of assign_pilot (lines 319-393), consuming one
line of operator input per iteration.  The `closed` flag records whether
the currently bound connection/cursor pair has already been closed (it
becomes true after the first unrecognized input, whose fall-through runs
close_connection at line 393 and then loops).  "no" breaks out with nothing
written (skipping line 393); "yes" rebinds a fresh connection at line 333,
resolves the flight (zero matches: report and return; otherwise fetchone
takes the first match), runs the UPDATE in a transaction, commits,
re-displays and closes.  Any other input re-displays and reaches
close_connection: with the pair still open this closes it and prompts
again, but with the pair already closed cursor.close() raises
sqlite3.ProgrammingError, so a second consecutive unrecognized input aborts
the whole operation before any later token is read. -/
def apLoop (db : DB) (pid fn dd dc ac : Val) :
    Bool → List String → APOut × DB × List Ev
  | _, [] => (.noInput, db, [])
  | closed, inp :: rest =>
    let low := strLower inp
    if low == "no" then (.cancelled, db, [])
    else if low == "yes" then
      match flightLookup db fn dc ac with
      | [] => (.notFound, db, [.connOpen, .exec])
      | fid :: _ =>
        (.assigned, { db with f_schedule := setPilotRows pid fid dd db.f_schedule },
          [.connOpen, .exec, .exec, .exec, .exec] ++ fetchTrace ++ fetchTrace ++
            [.connClose])
    else
      if closed then (.crashed, db, fetchTrace ++ fetchTrace)
      else
        let r := apLoop db pid fn dd dc ac true rest
        (r.1, r.2.1, fetchTrace ++ fetchTrace ++ [.connClose] ++ r.2.2)

/-- assign_pilot (database_queries.py lines 280-393).  A connection is
opened (line 288) before the pilot-ID check; a missing pilot ID closes it
and returns.  The pilot schedule is displayed, then the four identifying
fields are checked together by Python `all` (truthiness), a failure
returning without closing; then the flight is displayed and the
confirmation loop runs. -/
def assignPilot (db : DB)
    (pilot_id flight_number departure_date departure_city arrival_city :
      Option Val) (inputs : List String) : APOut × DB × List Ev :=
  match pilot_id with
  | none => (.missingPilot, db, [.connOpen, .connClose])
  | some pid =>
    match flight_number, departure_date, departure_city, arrival_city with
    | some fn, some dd, some dc, some ac =>
      if valTruthy fn && valTruthy dd && valTruthy dc && valTruthy ac then
        let r := apLoop db pid fn dd dc ac false inputs
        (r.1, r.2.1, [.connOpen] ++ fetchTrace ++ fetchTrace ++ r.2.2)
      else (.incomplete, db, [.connOpen] ++ fetchTrace)
    | _, _, _, _ => (.incomplete, db, [.connOpen] ++ fetchTrace)

/-- Whether the confirmation loop, started with the given closed-flag,
actually reads an affirmative token: "no" stops it, "yes" is read, an
unrecognized input is survived only once (a second one crashes the
operation before any later token is read). -/
def yesReachedFrom : Bool → List String → Bool
  | _, [] => false
  | closed, inp :: rest =>
    let low := strLower inp
    if low == "no" then false
    else if low == "yes" then true
    else if closed then false
    else yesReachedFrom true rest

/-- Whether a run of assign_pilot on these operator inputs reads the
affirmative token: "yes" first, or "yes" right after a single unrecognized
input. -/
def yesReached (inputs : List String) : Bool :=
  yesReachedFrom false inputs

/-- The sample d_pilot rows of load_sample_data (airline_database.py lines
137-147). -/
def samplePilots : List Pilot :=
  [⟨"P0010001", "Bhaagyashree", "Patil", "ATPL8954", "2026-03-31", 1⟩,
   ⟨"P0010002", "Jo", "Hyde", "ATPL5235", "2027-01-26", 1⟩,
   ⟨"P0010003", "Christina", "Keating", "ATPL8648", "2025-09-03", 0⟩,
   ⟨"P0010004", "Zach", "Lyons", "CPL85695", "2026-02-28", 1⟩,
   ⟨"P0010005", "Raghubir", "Singh", "CPL64585", "2025-10-15", 0⟩,
   ⟨"P0010006", "Matthew", "Albertyn", "CPL89563", "2026-08-22", 1⟩,
   ⟨"P0010007", "James", "Davenport", "CPL85685", "2025-12-17", 1⟩,
   ⟨"P0010008", "Paola", "Bruscoli", "ATPL5684", "2026-11-01", 1⟩,
   ⟨"P0010009", "Ben", "Ralph", "CPL58695", "2026-05-08", 0⟩,
   ⟨"P0010010", "Neil", "Langmead", "ATPL2135", "2025-06-30", 1⟩]

/-- The sample d_destination rows of load_sample_data (lines 150-165). -/
def sampleDestinations : List Destination :=
  [⟨"DUB", "Dublin International", "Dublin", "Ireland"⟩,
   ⟨"EMA", "East Midlands", "Nottingham", "England"⟩,
   ⟨"BHX", "Birmingham Airport", "Birmingham", "England"⟩,
   ⟨"NWI", "Norwich International", "Norwich", "England"⟩,
   ⟨"BRS", "Bristol Airport", "Bristol", "England"⟩,
   ⟨"EXE", "Exeter Airport", "Exeter", "England"⟩,
   ⟨"SOU", "Southampton Airport", "Southampton", "England"⟩,
   ⟨"GCI", "Guernsey Airport", "Guernsey", "Channel Islands"⟩,
   ⟨"JER", "Jersey Airport", "Jersey", "Channel Islands"⟩,
   ⟨"NCL", "Newcastle International", "Newcastle", "England"⟩,
   ⟨"CDG", "Charles de Gaulle", "Paris", "France"⟩,
   ⟨"BIO", "Bilbao Airport", "Bilbao", "Spain"⟩,
   ⟨"MUC", "Munich International", "Munich", "Germany"⟩,
   ⟨"VRN", "Verona Villafranca Airport", "Verona", "Italy"⟩,
   ⟨"PMI", "Palma de Mallorca Airport", "Palma de Mallorca", "Spain"⟩]

/-- The sample d_flight rows of load_sample_data (lines 168-183). -/
def sampleFlights : List Flight :=
  [⟨1, "SI2206", "GCI", "JER", "08:30:00", "08:50:00"⟩,
   ⟨2, "SI3350", "JER", "SOU", "07:15:00", "08:05:00"⟩,
   ⟨3, "SI3351", "SOU", "JER", "08:35:00", "09:25:00"⟩,
   ⟨4, "SI5580", "JER", "DUB", "10:35:00", "12:20:00"⟩,
   ⟨5, "SI2206", "JER", "EXE", "09:20:00", "10:05:00"⟩,
   ⟨6, "SI2207", "EXE", "JER", "10:45:00", "11:30:00"⟩,
   ⟨7, "SI2203", "EXE", "JER", "08:35:00", "09:20:00"⟩,
   ⟨8, "SI2202", "JER", "EXE", "07:20:00", "08:05:00"⟩,
   ⟨9, "SI5552", "GCI", "JER", "12:45:00", "13:05:00"⟩,
   ⟨10, "SI5581", "DUB", "JER", "13:00:00", "14:45:00"⟩,
   ⟨11, "SI3312", "GCI", "SOU", "10:00:00", "10:45:00"⟩,
   ⟨12, "SI3328", "GCI", "SOU", "13:50:00", "14:35:00"⟩,
   ⟨13, "SI3342", "GCI", "SOU", "18:20:00", "19:05:00"⟩,
   ⟨14, "SI3329", "SOU", "GCI", "15:05:00", "15:50:00"⟩,
   ⟨15, "SI3313", "SOU", "GCI", "11:15:00", "12:00:00"⟩]

/-- The sample f_schedule rows of load_sample_data (lines 186-197). -/
def sampleSchedule : List Schedule :=
  [⟨1, "2025-04-21", none, none, 2, some "P0010001", "scheduled"⟩,
   ⟨2, "2025-04-21", none, none, 3, some "P0010001", "scheduled"⟩,
   ⟨3, "2025-04-21", none, none, 5, some "P0010002", "scheduled"⟩,
   ⟨4, "2025-04-21", none, none, 6, some "P0010002", "scheduled"⟩,
   ⟨5, "2025-04-06", none, none, 7, some "P0010002", "landed"⟩,
   ⟨6, "2025-04-06", none, none, 8, some "P0010002", "landed"⟩,
   ⟨7, "2025-04-07", none, none, 4, some "P0010003", "landed"⟩,
   ⟨8, "2025-04-07", none, none, 10, some "P0010003", "landed"⟩,
   ⟨9, "2025-04-08", none, none, 9, some "P0010004", "landed"⟩,
   ⟨10, "2025-04-09", none, none, 1, none, "cancelled"⟩,
   ⟨11, "2025-04-29", none, none, 2, none, "scheduled"⟩]

/-- The database state right after create_database_tables and
load_sample_data. -/
def sampleDB : DB :=
  ⟨samplePilots, sampleDestinations, sampleFlights, sampleSchedule⟩

/-- A well-formed optional filter argument: absent, or a truthy value (the
spec's "supplied" filters are actual values; `""`/`0` arguments are the
separate degenerate case treated by the truthiness claim). -/
def okParam : Option Val → Bool
  | none => true
  | some v => valTruthy v

/-- Modelled from the spec: an optional equality predicate — absent imposes
no restriction, supplied requires an exact match. -/
def optPred (o : Option Val) (p : Val → Bool) : Bool :=
  match o with
  | some v => p v
  | none => true

/-- Modelled from the spec: the conjunction of the supplied fetch_flights
equality predicates over a base-join row. -/
def flightSpecPred (fn dc ac dd st : Option Val) (j : FlightJoin) : Bool :=
  optPred fn (fun v => valEqStr v j.df.flight_number) &&
    optPred dc (fun v => valEqOptStr v (j.dd1.map (fun d => d.city))) &&
      optPred ac (fun v => valEqOptStr v (j.dd2.map (fun d => d.city))) &&
        optPred dd (fun v => valEqOptStr v (j.fs.map (fun s => s.departure_date))) &&
          optPred st (fun v => valEqOptStr v (j.fs.map (fun s => s.status)))

/-- Modelled from the spec: the conjunction of the supplied fetch_pilots
equality predicates over a base-join row. -/
def pilotSpecPred (pid fn ln : Option Val) (j : PilotJoin) : Bool :=
  optPred pid (fun v => valEqStr v j.dp.pilot_ID) &&
    optPred fn (fun v => valEqStr v j.dp.first_name) &&
      optPred ln (fun v => valEqStr v j.dp.last_name)

/-- Modelled from the spec: the conjunction of the supplied
fetch_destinations equality predicates over a destination row. -/
def destSpecPred (code an ci co : Option Val) (d : Destination) : Bool :=
  optPred code (fun v => valEqStr v d.destination_code) &&
    optPred an (fun v => valEqStr v d.airport_name) &&
      optPred ci (fun v => valEqStr v d.city) &&
        optPred co (fun v => valEqStr v d.country)

/-- Collapse a falsy argument (`""`, `0`) to `none`: under the source's
truthiness guards the two are indistinguishable. -/
def normParam : Option Val → Option Val
  | none => none
  | some v => if valTruthy v then some v else none

/-- The net effect on f_schedule of committing every update statement of a
modify_schedule batch. -/
def msApplyAll (sid : Val) (ndt narr nst : Option Val)
    (rows : List Schedule) : List Schedule :=
  (msStmts ndt narr nst).foldl (fun rs s => updRows sid s rs) rows

/-- Number of connections opened along a trace. -/
def opens (t : List Ev) : Nat := t.count Ev.connOpen

/-- Number of connections closed along a trace. -/
def closes (t : List Ev) : Nat := t.count Ev.connClose

theorem optLe_total (a b : Option String) : optLe a b = true ∨ optLe b a = true := by
  cases a with
  | none => exact Or.inl rfl
  | some x =>
    cases b with
    | none => exact Or.inr rfl
    | some y =>
      rcases le_total x y with h | h
      · exact Or.inl (by simpa [optLe] using h)
      · exact Or.inr (by simpa [optLe] using h)

theorem optLe_trans (a b c : Option String) (h1 : optLe a b = true)
    (h2 : optLe b c = true) : optLe a c = true := by
  cases a with
  | none => rfl
  | some x =>
    cases b with
    | none => simp [optLe] at h1
    | some y =>
      cases c with
      | none => simp [optLe] at h2
      | some z =>
        simp [optLe] at h1 h2 ⊢
        exact le_trans h1 h2

instance : IsTotal FlightJoin flightOrd :=
  ⟨fun a b => optLe_total (jKey b) (jKey a)⟩

instance : IsTrans FlightJoin flightOrd :=
  ⟨fun _ _ _ h1 h2 => optLe_trans _ _ _ h2 h1⟩

/-- C2 counterexample: on the freshly seeded sample database,
fetch_flights with flight number "SI2203" returns one row whose status is
"landed" (schedule row 5), not "scheduled" as the claim states. -/
theorem c2_status_is_landed_not_scheduled :
    (fetchFlights sampleDB (some (Val.vStr "SI2203")) none none none none).map
        (fun r => r.status) ≠ [some "scheduled"] ∧
      (fetchFlights sampleDB (some (Val.vStr "SI2203")) none none none none).map
        (fun r => r.status) = [some "landed"] := by
  decide

/-- C2 (amended): on the freshly seeded sample database, fetch_flights with
flight number "SI2203" returns exactly one row — departure Exeter Airport
(EXE), arrival Jersey Airport (JER), pilot "P0010002" — whose status is
"landed". -/
theorem c2_single_row_for_SI2203 :
    fetchFlights sampleDB (some (Val.vStr "SI2203")) none none none none =
      [⟨"SI2203", some "Exeter Airport", some "Jersey Airport", "08:35:00",
        "09:20:00", some "2025-04-06", some "P0010002", some "landed"⟩] := by
  decide

theorem addCrit_all {α : Type} (o : Option Val) (mk : Val → α) (p : α → Bool)
    (h : okParam o = true) :
    (addCrit o mk).all p = optPred o (fun v => p (mk v)) := by
  cases o with
  | none => rfl
  | some v =>
    have hv : valTruthy v = true := h
    simp [addCrit, optPred, hv]

theorem flightWhere_all (fn dc ac dd st : Option Val) (h1 : okParam fn = true)
    (h2 : okParam dc = true) (h3 : okParam ac = true) (h4 : okParam dd = true)
    (h5 : okParam st = true) (j : FlightJoin) :
    (flightWhere fn dc ac dd st).all (fun c => evalFlightCrit c j) =
      flightSpecPred fn dc ac dd st j := by
  simp only [flightWhere, List.all_append, addCrit_all _ _ _ h1,
    addCrit_all _ _ _ h2, addCrit_all _ _ _ h3, addCrit_all _ _ _ h4,
    addCrit_all _ _ _ h5, flightSpecPred, evalFlightCrit]

theorem pilotWhere_all (pid fn ln : Option Val) (h1 : okParam pid = true)
    (h2 : okParam fn = true) (h3 : okParam ln = true) (j : PilotJoin) :
    (pilotWhere pid fn ln).all (fun c => evalPilotCrit c j) =
      pilotSpecPred pid fn ln j := by
  simp only [pilotWhere, List.all_append, addCrit_all _ _ _ h1,
    addCrit_all _ _ _ h2, addCrit_all _ _ _ h3, pilotSpecPred, evalPilotCrit]

theorem destWhere_all (code an ci co : Option Val) (h1 : okParam code = true)
    (h2 : okParam an = true) (h3 : okParam ci = true) (h4 : okParam co = true)
    (d : Destination) :
    (destWhere code an ci co).all (fun c => evalDestCrit c d) =
      destSpecPred code an ci co d := by
  simp only [destWhere, List.all_append, addCrit_all _ _ _ h1,
    addCrit_all _ _ _ h2, addCrit_all _ _ _ h3, addCrit_all _ _ _ h4,
    destSpecPred, evalDestCrit]

/-- C1: for every combination of supplied equality filters, the three fetch
operations return exactly the rows of their base joins satisfying the
conjunction of the supplied predicates (fetch_flights up to its ORDER BY
permutation); with no filters they return the whole base join. -/
theorem c1_filter_conjunction :
    (∀ (db : DB) (fn dc ac dd st : Option Val),
        okParam fn = true → okParam dc = true → okParam ac = true →
          okParam dd = true → okParam st = true →
          (fetchFlights db fn dc ac dd st).Perm
            (((flightJoinRows db).filter
                (flightSpecPred fn dc ac dd st)).map projFlight)) ∧
      (∀ (db : DB) (pid fn ln : Option Val),
          okParam pid = true → okParam fn = true → okParam ln = true →
            fetchPilots db pid fn ln =
              ((pilotJoinRows db).filter (pilotSpecPred pid fn ln)).map projPilot) ∧
      (∀ (db : DB) (code an ci co : Option Val),
          okParam code = true → okParam an = true → okParam ci = true →
            okParam co = true →
            fetchDestinations db code an ci co =
              db.d_destination.filter (destSpecPred code an ci co)) := by
  refine ⟨?_, ?_, ?_⟩
  · intro db fn dc ac dd st h1 h2 h3 h4 h5
    have hfeq : (flightJoinRows db).filter
        (fun j => (flightWhere fn dc ac dd st).all (fun c => evalFlightCrit c j)) =
          (flightJoinRows db).filter (flightSpecPred fn dc ac dd st) :=
      List.filter_congr (fun j _ => flightWhere_all fn dc ac dd st h1 h2 h3 h4 h5 j)
    unfold fetchFlights
    rw [hfeq]
    exact (List.perm_insertionSort flightOrd _).map projFlight
  · intro db pid fn ln h1 h2 h3
    unfold fetchPilots
    rw [List.filter_congr (fun j _ => pilotWhere_all pid fn ln h1 h2 h3 j)]
  · intro db code an ci co h1 h2 h3 h4
    unfold fetchDestinations
    rw [List.filter_congr (fun d _ => destWhere_all code an ci co h1 h2 h3 h4 d)]

/-- C1 witness: the filter characterisation applied on the sample database
with a flight-number filter, a pilot-ID filter, and a country filter. -/
theorem c1_filter_conjunction_witness :
    (fetchFlights sampleDB (some (Val.vStr "SI2203")) none none none none).Perm
        (((flightJoinRows sampleDB).filter
            (flightSpecPred (some (Val.vStr "SI2203")) none none none none)).map
          projFlight) ∧
      fetchPilots sampleDB (some (Val.vStr "P0010001")) none none =
        ((pilotJoinRows sampleDB).filter
            (pilotSpecPred (some (Val.vStr "P0010001")) none none)).map projPilot ∧
      fetchDestinations sampleDB none none none (some (Val.vStr "England")) =
        sampleDB.d_destination.filter
          (destSpecPred none none none (some (Val.vStr "England"))) :=
  ⟨c1_filter_conjunction.1 sampleDB _ none none none none (by decide) rfl rfl rfl rfl,
   c1_filter_conjunction.2.1 sampleDB _ none none (by decide) rfl rfl,
   c1_filter_conjunction.2.2 sampleDB none none none _ rfl rfl rfl (by decide)⟩

/-- C7: for every filter combination, the fetch_flights result is ordered by
departure date descending, rows with a NULL date sorting last (SQLite puts
NULL below every value, so DESC places it at the end). -/
theorem c7_ordered_by_date_desc :
    ∀ (db : DB) (fn dc ac dd st : Option Val),
      (fetchFlights db fn dc ac dd st).Pairwise
        (fun a b => optLe b.departure_date a.departure_date = true) := by
  intro db fn dc ac dd st
  unfold fetchFlights
  exact List.Pairwise.map projFlight (fun _ _ h => h)
    (List.sorted_insertionSort flightOrd _)

theorem addCrit_norm {α : Type} (o : Option Val) (mk : Val → α) :
    addCrit (normParam o) mk = addCrit o mk := by
  cases o with
  | none => rfl
  | some v => cases hv : valTruthy v <;> simp [normParam, addCrit, hv]

/-- C9: every optional filter or update-field argument tested by a Python
truthiness guard treats a falsy value (`""`, `0`) exactly like an absent
argument, across all five operations; in particular fetch_flights with an
empty flight number is unfiltered and modify_schedule with an empty status
performs no update. -/
theorem c9_falsy_param_ignored :
    (∀ (db : DB) (fn dc ac dd st : Option Val),
        fetchFlights db fn dc ac dd st =
          fetchFlights db (normParam fn) (normParam dc) (normParam ac)
            (normParam dd) (normParam st)) ∧
      (∀ (db : DB) (pid fn ln : Option Val),
          fetchPilots db pid fn ln =
            fetchPilots db (normParam pid) (normParam fn) (normParam ln)) ∧
      (∀ (db : DB) (code an ci co : Option Val),
          fetchDestinations db code an ci co =
            fetchDestinations db (normParam code) (normParam an) (normParam ci)
              (normParam co)) ∧
      (∀ (fails : Nat → Bool) (db : DB) (sid ndt narr nst : Option Val),
          modifySchedule fails db sid ndt narr nst =
            modifySchedule fails db sid (normParam ndt) (normParam narr)
              (normParam nst)) ∧
      (∀ (db : DB) (code an ci co : Option Val),
          modifyDestination db code an ci co =
            modifyDestination db code (normParam an) (normParam ci)
              (normParam co)) ∧
      (∀ (db : DB), fetchFlights db (some (Val.vStr "")) none none none none =
          fetchFlights db none none none none none) ∧
      (∀ (fails : Nat → Bool) (db : DB) (sid : Val),
          (modifySchedule fails db (some sid) none none
              (some (Val.vStr ""))).2.1 = db) := by
  refine ⟨?_, ?_, ?_, ?_, ?_, ?_, ?_⟩
  · intro db fn dc ac dd st
    simp only [fetchFlights, flightWhere, addCrit_norm]
  · intro db pid fn ln
    simp only [fetchPilots, pilotWhere, addCrit_norm]
  · intro db code an ci co
    simp only [fetchDestinations, destWhere, addCrit_norm]
  · intro fails db sid ndt narr nst
    simp only [modifySchedule, msStmts, addCrit_norm]
  · intro db code an ci co
    simp only [modifyDestination, mdStmts, addCrit_norm]
  · intro db
    have h : addCrit (some (Val.vStr "")) FlightCrit.byNumber =
        addCrit (none : Option Val) FlightCrit.byNumber := by decide
    simp only [fetchFlights, flightWhere, h]
  · intro fails db sid
    have hs : msStmts none none (some (Val.vStr "")) = [] := rfl
    cases hh : (db.f_schedule.filter (schedMatches sid)).head? with
    | none => simp [modifySchedule, hh]
    | some r => simp [modifySchedule, hh, hs, runStmts]

/-- C5 counterexample: assign_pilot with no pilot ID does open (and close) a
database connection before detecting the missing argument, so "no database
access attempted" is false for it. -/
theorem c5_assign_pilot_opens_connection :
    (assignPilot sampleDB none none none none none []).1 = APOut.missingPilot ∧
      (assignPilot sampleDB none none none none none []).2.2 ≠ [] ∧
      Ev.connOpen ∈ (assignPilot sampleDB none none none none none []).2.2 := by
  decide

/-- C5 (amended): a missing identifying argument makes each operation report
MissingArgument and leave the database unchanged; modify_schedule and
modify_destination touch the database layer not at all, while assign_pilot
opens and closes one connection (executing no statement) before returning. -/
theorem c5_missing_argument :
    (∀ (fails : Nat → Bool) (db : DB) (ndt narr nst : Option Val),
        modifySchedule fails db none ndt narr nst = (Out.missingArg, db, [])) ∧
      (∀ (db : DB) (an ci co : Option Val),
          modifyDestination db none an ci co = (Out.missingArg, db, [])) ∧
      (∀ (db : DB) (fn dd dc ac : Option Val) (inputs : List String),
          assignPilot db none fn dd dc ac inputs =
            (APOut.missingPilot, db, [Ev.connOpen, Ev.connClose])) := by
  refine ⟨?_, ?_, ?_⟩
  · intro fails db ndt narr nst
    rfl
  · intro db an ci co
    rfl
  · intro db fn dd dc ac inputs
    rfl

theorem runStmts_cases (fails : Nat → Bool) (sid : Val) :
    ∀ (stmts : List (Schedule → Schedule)) (k : Nat) (rows : List Schedule),
      (runStmts fails sid k stmts rows).1 =
          some (stmts.foldl (fun rs s => updRows sid s rs) rows) ∨
        (runStmts fails sid k stmts rows).1 = none := by
  intro stmts
  induction stmts with
  | nil => intro k rows; exact Or.inl rfl
  | cons s rest ih =>
    intro k rows
    by_cases hf : fails k = true
    · right
      simp [runStmts, hf]
    · have hf' : fails k = false := eq_false_of_ne_true hf
      rcases ih (k + 1) (updRows sid s rows) with h | h
      · left
        simp [runStmts, hf', h]
      · right
        simp [runStmts, hf', h]

theorem runStmts_ok (fails : Nat → Bool) (sid : Val) (hall : ∀ k, fails k = false) :
    ∀ (stmts : List (Schedule → Schedule)) (k : Nat) (rows : List Schedule),
      (runStmts fails sid k stmts rows).1 =
        some (stmts.foldl (fun rs s => updRows sid s rs) rows) := by
  intro stmts
  induction stmts with
  | nil => intro k rows; rfl
  | cons s rest ih =>
    intro k rows
    simp [runStmts, hall k, ih]

/-- C3: for an existing schedule ID, modify_schedule runs all supplied field
updates in one transaction: either every supplied update is committed, or
(when a statement in the batch fails) the commit never happens and the
database is observed unchanged; with no failure the commit always happens. -/
theorem c3_atomic_schedule_update :
    ∀ (fails : Nat → Bool) (db : DB) (sid : Val) (ndt narr nst : Option Val),
      db.f_schedule.filter (schedMatches sid) ≠ [] →
      (((modifySchedule fails db (some sid) ndt narr nst).1 = Out.ok ∧
          (modifySchedule fails db (some sid) ndt narr nst).2.1 =
            { db with f_schedule := msApplyAll sid ndt narr nst db.f_schedule }) ∨
        ((modifySchedule fails db (some sid) ndt narr nst).1 = Out.failed ∧
          (modifySchedule fails db (some sid) ndt narr nst).2.1 = db)) ∧
        ((∀ k, fails k = false) →
          (modifySchedule fails db (some sid) ndt narr nst).1 = Out.ok ∧
            (modifySchedule fails db (some sid) ndt narr nst).2.1 =
              { db with f_schedule := msApplyAll sid ndt narr nst db.f_schedule }) := by
  intro fails db sid ndt narr nst hne
  obtain ⟨a, t, hat⟩ := List.exists_cons_of_ne_nil hne
  have hh : (db.f_schedule.filter (schedMatches sid)).head? = some a := by
    rw [hat]; rfl
  constructor
  · rcases runStmts_cases fails sid (msStmts ndt narr nst) 0 db.f_schedule with h | h
    · left
      constructor <;> simp [modifySchedule, hh, h, msApplyAll]
    · right
      constructor <;> simp [modifySchedule, hh, h]
  · intro hall
    have h := runStmts_ok fails sid hall (msStmts ndt narr nst) 0 db.f_schedule
    constructor <;> simp [modifySchedule, hh, h, msApplyAll]

/-- C3 witness: updating the departure time of schedule 2 on the sample
database, with no statement failing. -/
theorem c3_atomic_schedule_update_witness :
    (((modifySchedule (fun _ => false) sampleDB (some (Val.vInt 2))
            (some (Val.vStr "12:00")) none none).1 = Out.ok ∧
        (modifySchedule (fun _ => false) sampleDB (some (Val.vInt 2))
            (some (Val.vStr "12:00")) none none).2.1 =
          { sampleDB with
              f_schedule := msApplyAll (Val.vInt 2) (some (Val.vStr "12:00"))
                none none sampleDB.f_schedule }) ∨
      ((modifySchedule (fun _ => false) sampleDB (some (Val.vInt 2))
            (some (Val.vStr "12:00")) none none).1 = Out.failed ∧
        (modifySchedule (fun _ => false) sampleDB (some (Val.vInt 2))
            (some (Val.vStr "12:00")) none none).2.1 = sampleDB)) ∧
      ((∀ k, (fun _ => false : Nat → Bool) k = false) →
        (modifySchedule (fun _ => false) sampleDB (some (Val.vInt 2))
            (some (Val.vStr "12:00")) none none).1 = Out.ok ∧
          (modifySchedule (fun _ => false) sampleDB (some (Val.vInt 2))
              (some (Val.vStr "12:00")) none none).2.1 =
            { sampleDB with
                f_schedule := msApplyAll (Val.vInt 2) (some (Val.vStr "12:00"))
                  none none sampleDB.f_schedule }) :=
  c3_atomic_schedule_update (fun _ => false) sampleDB (Val.vInt 2)
    (some (Val.vStr "12:00")) none none (by decide)

theorem apLoop_noFlight (db : DB) (pid fn dd dc ac : Val)
    (h : flightLookup db fn dc ac = []) :
    ∀ (inputs : List String) (closed : Bool),
      (apLoop db pid fn dd dc ac closed inputs).2.1 = db ∧
        (apLoop db pid fn dd dc ac closed inputs).1 ≠ APOut.assigned := by
  intro inputs
  induction inputs with
  | nil => intro closed; exact ⟨rfl, by simp [apLoop]⟩
  | cons inp rest ih =>
    intro closed
    by_cases h1 : (strLower inp == "no") = true
    · simp [apLoop, h1]
    · have hb1 : (strLower inp == "no") = false := eq_false_of_ne_true h1
      by_cases h2 : (strLower inp == "yes") = true
      · simp [apLoop, hb1, h2, h]
      · have hb2 : (strLower inp == "yes") = false := eq_false_of_ne_true h2
        cases closed with
        | true => constructor <;> simp [apLoop, hb1, hb2]
        | false => simpa [apLoop, hb1, hb2] using ih true

theorem apLoop_confirmed (db : DB) (pid fn dd dc ac : Val) :
    ∀ (inputs : List String) (closed : Bool),
      yesReachedFrom closed inputs = true →
      (flightLookup db fn dc ac = [] →
          (apLoop db pid fn dd dc ac closed inputs).1 = APOut.notFound ∧
            (apLoop db pid fn dd dc ac closed inputs).2.1 = db) ∧
        (∀ fid rest, flightLookup db fn dc ac = fid :: rest →
            (apLoop db pid fn dd dc ac closed inputs).1 = APOut.assigned ∧
              (apLoop db pid fn dd dc ac closed inputs).2.1 =
                { db with f_schedule := setPilotRows pid fid dd db.f_schedule }) := by
  intro inputs
  induction inputs with
  | nil => intro closed hfd; simp [yesReachedFrom] at hfd
  | cons inp rest ih =>
    intro closed hfd
    by_cases h1 : (strLower inp == "no") = true
    · simp [yesReachedFrom, h1] at hfd
    · have hb1 : (strLower inp == "no") = false := eq_false_of_ne_true h1
      by_cases h2 : (strLower inp == "yes") = true
      · constructor
        · intro hlk
          simp [apLoop, hb1, h2, hlk]
        · intro fid rest' hlk
          simp [apLoop, hb1, h2, hlk]
      · have hb2 : (strLower inp == "yes") = false := eq_false_of_ne_true h2
        cases closed with
        | true => simp [yesReachedFrom, hb1, hb2] at hfd
        | false =>
          have hfd' : yesReachedFrom true rest = true := by
            simpa [yesReachedFrom, hb1, hb2] using hfd
          constructor
          · intro hlk
            simpa [apLoop, hb1, hb2] using (ih true hfd').1 hlk
          · intro fid rest' hlk
            simpa [apLoop, hb1, hb2] using (ih true hfd').2 fid rest' hlk

/-- C4: a guarding lookup that finds zero rows aborts the mutation with the
database unchanged: modify_schedule with an unknown schedule ID reports
NotFound with zero writes, and assign_pilot whose flight resolution matches
no d_flight row never assigns, leaves the database unchanged, and — on every
run in which the affirmative token is actually read, so the resolution query
runs at all — reports NotFound. -/
theorem c4_not_found_aborts :
    (∀ (fails : Nat → Bool) (db : DB) (sid : Val) (ndt narr nst : Option Val),
        db.f_schedule.filter (schedMatches sid) = [] →
        (modifySchedule fails db (some sid) ndt narr nst).1 = Out.notFound ∧
          (modifySchedule fails db (some sid) ndt narr nst).2.1 = db) ∧
      (∀ (db : DB) (pid fn dd dc ac : Val) (inputs : List String),
          flightLookup db fn dc ac = [] →
          (assignPilot db (some pid) (some fn) (some dd) (some dc) (some ac)
                inputs).2.1 = db ∧
            (assignPilot db (some pid) (some fn) (some dd) (some dc) (some ac)
                inputs).1 ≠ APOut.assigned) ∧
      (∀ (db : DB) (pid fn dd dc ac : Val) (inputs : List String),
          flightLookup db fn dc ac = [] →
          valTruthy fn = true → valTruthy dd = true → valTruthy dc = true →
            valTruthy ac = true → yesReached inputs = true →
            (assignPilot db (some pid) (some fn) (some dd) (some dc) (some ac)
                inputs).1 = APOut.notFound) := by
  refine ⟨?_, ?_, ?_⟩
  · intro fails db sid ndt narr nst hempty
    have hh : (db.f_schedule.filter (schedMatches sid)).head? = none := by
      rw [hempty]; rfl
    constructor <;> simp [modifySchedule, hh]
  · intro db pid fn dd dc ac inputs hlk
    by_cases ht : (valTruthy fn && valTruthy dd && valTruthy dc && valTruthy ac) = true
    · have h := apLoop_noFlight db pid fn dd dc ac hlk inputs false
      constructor
      · simpa [assignPilot, ht] using h.1
      · simpa [assignPilot, ht] using h.2
    · have ht' := eq_false_of_ne_true ht
      constructor <;> simp [assignPilot, ht']
  · intro db pid fn dd dc ac inputs hlk h1 h2 h3 h4 hfd
    have ht : (valTruthy fn && valTruthy dd && valTruthy dc && valTruthy ac) = true := by
      simp [h1, h2, h3, h4]
    have h := ((apLoop_confirmed db pid fn dd dc ac inputs false hfd).1 hlk).1
    simpa [assignPilot, ht] using h

/-- C4 witness: an unknown schedule ID (999) on the sample database, and a
flight resolution ("ZZ99" Exeter to Jersey) matching no flight, with the
operator confirming. -/
theorem c4_not_found_aborts_witness :
    ((modifySchedule (fun _ => false) sampleDB (some (Val.vInt 999)) none none
          none).1 = Out.notFound ∧
        (modifySchedule (fun _ => false) sampleDB (some (Val.vInt 999)) none
            none none).2.1 = sampleDB) ∧
      ((assignPilot sampleDB (some (Val.vStr "P0010001")) (some (Val.vStr "ZZ99"))
              (some (Val.vStr "2025-04-21")) (some (Val.vStr "Exeter"))
              (some (Val.vStr "Jersey")) ["yes"]).2.1 = sampleDB ∧
        (assignPilot sampleDB (some (Val.vStr "P0010001")) (some (Val.vStr "ZZ99"))
              (some (Val.vStr "2025-04-21")) (some (Val.vStr "Exeter"))
              (some (Val.vStr "Jersey")) ["yes"]).1 ≠ APOut.assigned) ∧
      (assignPilot sampleDB (some (Val.vStr "P0010001")) (some (Val.vStr "ZZ99"))
            (some (Val.vStr "2025-04-21")) (some (Val.vStr "Exeter"))
            (some (Val.vStr "Jersey")) ["yes"]).1 = APOut.notFound :=
  ⟨c4_not_found_aborts.1 (fun _ => false) sampleDB (Val.vInt 999) none none none
      (by decide),
   c4_not_found_aborts.2.1 sampleDB (Val.vStr "P0010001") (Val.vStr "ZZ99")
      (Val.vStr "2025-04-21") (Val.vStr "Exeter") (Val.vStr "Jersey") ["yes"]
      (by decide),
   c4_not_found_aborts.2.2 sampleDB (Val.vStr "P0010001") (Val.vStr "ZZ99")
      (Val.vStr "2025-04-21") (Val.vStr "Exeter") (Val.vStr "Jersey") ["yes"]
      (by decide) rfl rfl rfl rfl (by decide)⟩

/-- C6 (code bug): the source's confirmation loop survives only one
unrecognized input.  The first unrecognized input's fall-through closes the
line-288 connection and re-prompts, but the second consecutive unrecognized
input reaches close_connection (line 393) on that already-closed pair and
cursor.close() raises sqlite3.ProgrammingError, aborting assign_pilot with
the database unchanged before any later token is read — so with inputs
"a", "b", "yes" the operation crashes instead of re-prompting until the
explicit token, as the claim requires. -/
theorem c6_second_unrecognized_input_crashes :
    (assignPilot sampleDB (some (Val.vStr "P0010007"))
          (some (Val.vStr "SI2207")) (some (Val.vStr "2025-04-21"))
          (some (Val.vStr "Exeter")) (some (Val.vStr "Jersey"))
          ["a", "b", "yes"]).1 = APOut.crashed ∧
      (assignPilot sampleDB (some (Val.vStr "P0010007"))
          (some (Val.vStr "SI2207")) (some (Val.vStr "2025-04-21"))
          (some (Val.vStr "Exeter")) (some (Val.vStr "Jersey"))
          ["a", "b", "yes"]).2.1 = sampleDB := by
  decide

theorem setPilotRows_noMatch (pid : Val) (fid : Int) (dd : Val)
    (rows : List Schedule)
    (h : ∀ r ∈ rows, (r.flight_ID == fid && valEqStr dd r.departure_date) = false) :
    setPilotRows pid fid dd rows = rows := by
  induction rows with
  | nil => rfl
  | cons r rs ih =>
    have hr := h r (List.mem_cons_self r rs)
    have hrs := ih (fun x hx => h x (List.mem_cons_of_mem r hx))
    simp only [setPilotRows, List.map_cons] at hrs ⊢
    rw [hr]
    exact congrArg₂ List.cons (if_neg (by simp)) hrs

/-- C10: on any run in which the affirmative token is actually read (so at
most one unrecognized input precedes it) and the flight resolution
succeeds, assign_pilot takes the first resolved flight (ignoring any
further matches), sets the pilot on every f_schedule row matching that
flight and the supplied date, and reports success — even when zero schedule
rows match, in which case the database is simply unchanged with no
NotFound. -/
theorem c10_assign_updates_matching_rows :
    ∀ (db : DB) (pid fn dd dc ac : Val) (inputs : List String)
      (fid : Int) (rest : List Int),
      flightLookup db fn dc ac = fid :: rest →
      valTruthy fn = true → valTruthy dd = true → valTruthy dc = true →
        valTruthy ac = true → yesReached inputs = true →
      ((assignPilot db (some pid) (some fn) (some dd) (some dc) (some ac)
              inputs).1 = APOut.assigned ∧
          (assignPilot db (some pid) (some fn) (some dd) (some dc) (some ac)
              inputs).2.1 =
            { db with f_schedule := setPilotRows pid fid dd db.f_schedule }) ∧
        ((∀ r ∈ db.f_schedule,
            (r.flight_ID == fid && valEqStr dd r.departure_date) = false) →
          (assignPilot db (some pid) (some fn) (some dd) (some dc) (some ac)
              inputs).2.1 = db) := by
  intro db pid fn dd dc ac inputs fid rest hlk h1 h2 h3 h4 hfd
  have ht : (valTruthy fn && valTruthy dd && valTruthy dc && valTruthy ac) = true := by
    simp [h1, h2, h3, h4]
  have h := (apLoop_confirmed db pid fn dd dc ac inputs false hfd).2 fid rest hlk
  have hmain : (assignPilot db (some pid) (some fn) (some dd) (some dc) (some ac)
        inputs).1 = APOut.assigned ∧
      (assignPilot db (some pid) (some fn) (some dd) (some dc) (some ac)
          inputs).2.1 =
        { db with f_schedule := setPilotRows pid fid dd db.f_schedule } := by
    constructor
    · simpa [assignPilot, ht] using h.1
    · simpa [assignPilot, ht] using h.2
  refine ⟨hmain, ?_⟩
  intro hnm
  rw [hmain.2, setPilotRows_noMatch pid fid dd db.f_schedule hnm]

/-- C10 witness: confirming the assignment of pilot P0010007 to flight
SI2207 (Exeter to Jersey, resolved flight ID 6) on 2025-04-21 in the sample
database. -/
theorem c10_assign_updates_matching_rows_witness :
    ((assignPilot sampleDB (some (Val.vStr "P0010007"))
            (some (Val.vStr "SI2207")) (some (Val.vStr "2025-04-21"))
            (some (Val.vStr "Exeter")) (some (Val.vStr "Jersey"))
            ["yes"]).1 = APOut.assigned ∧
        (assignPilot sampleDB (some (Val.vStr "P0010007"))
            (some (Val.vStr "SI2207")) (some (Val.vStr "2025-04-21"))
            (some (Val.vStr "Exeter")) (some (Val.vStr "Jersey"))
            ["yes"]).2.1 =
          { sampleDB with
              f_schedule := setPilotRows (Val.vStr "P0010007") 6
                (Val.vStr "2025-04-21") sampleDB.f_schedule }) ∧
      ((∀ r ∈ sampleDB.f_schedule,
          (r.flight_ID == 6 &&
              valEqStr (Val.vStr "2025-04-21") r.departure_date) = false) →
        (assignPilot sampleDB (some (Val.vStr "P0010007"))
            (some (Val.vStr "SI2207")) (some (Val.vStr "2025-04-21"))
            (some (Val.vStr "Exeter")) (some (Val.vStr "Jersey"))
            ["yes"]).2.1 = sampleDB) :=
  c10_assign_updates_matching_rows sampleDB (Val.vStr "P0010007")
    (Val.vStr "SI2207") (Val.vStr "2025-04-21") (Val.vStr "Exeter")
    (Val.vStr "Jersey") ["yes"] 6 [] (by decide) rfl rfl rfl rfl (by decide)

theorem count_const_exec_zero {α : Type} (l : List α) {e : Ev} (h : e ≠ Ev.exec) :
    (l.map (fun _ => Ev.exec)).count e = 0 :=
  List.count_eq_zero.mpr (fun hmem => by
    rcases List.mem_map.mp hmem with ⟨x, _, hx⟩
    exact h hx.symm)

theorem runStmts_trace_pure (fails : Nat → Bool) (sid : Val) :
    ∀ (stmts : List (Schedule → Schedule)) (k : Nat) (rows : List Schedule),
      (runStmts fails sid k stmts rows).2.count Ev.connOpen = 0 ∧
        (runStmts fails sid k stmts rows).2.count Ev.connClose = 0 := by
  intro stmts
  induction stmts with
  | nil => intro k rows; exact ⟨rfl, rfl⟩
  | cons s rest ih =>
    intro k rows
    by_cases hf : fails k = true
    · constructor <;> simp [runStmts, hf]
    · have hf' := eq_false_of_ne_true hf
      have h := ih (k + 1) (updRows sid s rows)
      constructor <;> simp [runStmts, hf', List.count_cons, h.1, h.2]

/-- C8 counterexample: modify_schedule called with a schedule ID absent from
the database returns with the connection it opened still open (the early
return at the "doesn't exist" branch skips close_connection). -/
theorem c8_unknown_schedule_leaks_connection :
    opens (modifySchedule (fun _ => false) sampleDB (some (Val.vInt 999)) none
        none none).2.2 = 1 ∧
      closes (modifySchedule (fun _ => false) sampleDB (some (Val.vInt 999))
          none none none).2.2 = 0 := by
  decide

/-- C8 (amended): connection release is path-dependent, not universal.  The
fetch operations balance their open/close; modify_schedule balances on the
missing-argument and committed paths, but leaves its connection open on the
unknown-schedule return and on a mid-transaction statement failure;
modify_destination balances; assign_pilot balances only on the
missing-pilot path, while the incomplete-criteria return, an immediate
negative confirmation, and a completed assignment each leave one connection
unclosed and an unresolvable flight leaves two. -/
theorem c8_connection_release_paths :
    opens fetchTrace = closes fetchTrace ∧
      (∀ (fails : Nat → Bool) (db : DB) (n1 n2 n3 : Option Val),
          (modifySchedule fails db none n1 n2 n3).2.2 = []) ∧
      (∀ (fails : Nat → Bool) (db : DB) (sid : Val) (n1 n2 n3 : Option Val),
          db.f_schedule.filter (schedMatches sid) ≠ [] →
          (∀ k, fails k = false) →
          opens (modifySchedule fails db (some sid) n1 n2 n3).2.2 = 1 ∧
            closes (modifySchedule fails db (some sid) n1 n2 n3).2.2 = 1) ∧
      (∀ (fails : Nat → Bool) (db : DB) (sid : Val) (n1 n2 n3 : Option Val),
          db.f_schedule.filter (schedMatches sid) = [] →
          opens (modifySchedule fails db (some sid) n1 n2 n3).2.2 = 1 ∧
            closes (modifySchedule fails db (some sid) n1 n2 n3).2.2 = 0) ∧
      (∀ (fails : Nat → Bool) (db : DB) (sid : Val) (n1 n2 n3 : Option Val),
          db.f_schedule.filter (schedMatches sid) ≠ [] →
          (runStmts fails sid 0 (msStmts n1 n2 n3) db.f_schedule).1 = none →
          opens (modifySchedule fails db (some sid) n1 n2 n3).2.2 = 1 ∧
            closes (modifySchedule fails db (some sid) n1 n2 n3).2.2 = 0) ∧
      (∀ (db : DB) (code : Val) (an ci co : Option Val),
          opens (modifyDestination db (some code) an ci co).2.2 =
            closes (modifyDestination db (some code) an ci co).2.2) ∧
      (∀ (db : DB) (fn dd dc ac : Option Val) (inputs : List String),
          opens (assignPilot db none fn dd dc ac inputs).2.2 =
            closes (assignPilot db none fn dd dc ac inputs).2.2) ∧
      (∀ (db : DB) (pid : Val) (inputs : List String),
          opens (assignPilot db (some pid) none none none none inputs).2.2 =
            closes (assignPilot db (some pid) none none none none inputs).2.2 + 1) ∧
      (∀ (db : DB) (pid fn dd dc ac : Val) (rest : List String),
          valTruthy fn = true → valTruthy dd = true → valTruthy dc = true →
            valTruthy ac = true →
          opens (assignPilot db (some pid) (some fn) (some dd) (some dc)
                (some ac) ("no" :: rest)).2.2 =
            closes (assignPilot db (some pid) (some fn) (some dd) (some dc)
                (some ac) ("no" :: rest)).2.2 + 1) ∧
      (∀ (db : DB) (pid fn dd dc ac : Val) (rest : List String) (fid : Int)
          (more : List Int),
          valTruthy fn = true → valTruthy dd = true → valTruthy dc = true →
            valTruthy ac = true → flightLookup db fn dc ac = fid :: more →
          opens (assignPilot db (some pid) (some fn) (some dd) (some dc)
                (some ac) ("yes" :: rest)).2.2 =
            closes (assignPilot db (some pid) (some fn) (some dd) (some dc)
                (some ac) ("yes" :: rest)).2.2 + 1) ∧
      (∀ (db : DB) (pid fn dd dc ac : Val) (rest : List String),
          valTruthy fn = true → valTruthy dd = true → valTruthy dc = true →
            valTruthy ac = true → flightLookup db fn dc ac = [] →
          opens (assignPilot db (some pid) (some fn) (some dd) (some dc)
                (some ac) ("yes" :: rest)).2.2 =
            closes (assignPilot db (some pid) (some fn) (some dd) (some dc)
                (some ac) ("yes" :: rest)).2.2 + 2) := by
  refine ⟨rfl, ?_, ?_, ?_, ?_, ?_, ?_, ?_, ?_, ?_, ?_⟩
  · intro fails db n1 n2 n3
    rfl
  · intro fails db sid n1 n2 n3 hne hall
    obtain ⟨a, t, hat⟩ := List.exists_cons_of_ne_nil hne
    have hh : (db.f_schedule.filter (schedMatches sid)).head? = some a := by
      rw [hat]; rfl
    have hr := runStmts_ok fails sid hall (msStmts n1 n2 n3) 0 db.f_schedule
    have hp := runStmts_trace_pure fails sid (msStmts n1 n2 n3) 0 db.f_schedule
    constructor <;>
      simp [opens, closes, modifySchedule, hh, hr, List.count_append,
        List.count_cons, hp.1, hp.2]
  · intro fails db sid n1 n2 n3 hempty
    have hh : (db.f_schedule.filter (schedMatches sid)).head? = none := by
      rw [hempty]; rfl
    constructor <;> simp [opens, closes, modifySchedule, hh]
  · intro fails db sid n1 n2 n3 hne hfail
    obtain ⟨a, t, hat⟩ := List.exists_cons_of_ne_nil hne
    have hh : (db.f_schedule.filter (schedMatches sid)).head? = some a := by
      rw [hat]; rfl
    have hp := runStmts_trace_pure fails sid (msStmts n1 n2 n3) 0 db.f_schedule
    constructor <;>
      simp [opens, closes, modifySchedule, hh, hfail, List.count_append,
        List.count_cons, hp.1, hp.2]
  · intro db code an ci co
    simp [opens, closes, modifyDestination, fetchTrace, List.count_append,
      List.count_cons, count_const_exec_zero, List.count_replicate]
  · intro db fn dd dc ac inputs
    rfl
  · intro db pid inputs
    rfl
  · intro db pid fn dd dc ac rest h1 h2 h3 h4
    have ht : (valTruthy fn && valTruthy dd && valTruthy dc && valTruthy ac) = true := by
      simp [h1, h2, h3, h4]
    simp [opens, closes, assignPilot, ht, apLoop, strLower, fetchTrace,
      List.count_append, List.count_cons]
  · intro db pid fn dd dc ac rest fid more h1 h2 h3 h4 hlk
    have ht : (valTruthy fn && valTruthy dd && valTruthy dc && valTruthy ac) = true := by
      simp [h1, h2, h3, h4]
    simp [opens, closes, assignPilot, ht, apLoop, strLower, hlk, fetchTrace,
      List.count_append, List.count_cons]
  · intro db pid fn dd dc ac rest h1 h2 h3 h4 hlk
    have ht : (valTruthy fn && valTruthy dd && valTruthy dc && valTruthy ac) = true := by
      simp [h1, h2, h3, h4]
    simp [opens, closes, assignPilot, ht, apLoop, strLower, hlk, fetchTrace,
      List.count_append, List.count_cons]

/-- C8 witness: the path-dependent connection accounting at concrete inputs
on the sample database (committed update, unknown schedule, failing
statement, negative confirmation, completed assignment, unresolvable
flight). -/
theorem c8_connection_release_paths_witness :
    (opens (modifySchedule (fun _ => false) sampleDB (some (Val.vInt 2))
          (some (Val.vStr "12:00")) none none).2.2 = 1 ∧
        closes (modifySchedule (fun _ => false) sampleDB (some (Val.vInt 2))
            (some (Val.vStr "12:00")) none none).2.2 = 1) ∧
      (opens (modifySchedule (fun _ => false) sampleDB (some (Val.vInt 999))
            none none none).2.2 = 1 ∧
        closes (modifySchedule (fun _ => false) sampleDB (some (Val.vInt 999))
            none none none).2.2 = 0) ∧
      (opens (modifySchedule (fun _ => true) sampleDB (some (Val.vInt 2))
            (some (Val.vStr "12:00")) none none).2.2 = 1 ∧
        closes (modifySchedule (fun _ => true) sampleDB (some (Val.vInt 2))
            (some (Val.vStr "12:00")) none none).2.2 = 0) ∧
      opens (assignPilot sampleDB (some (Val.vStr "P0010001"))
            (some (Val.vStr "SI2207")) (some (Val.vStr "2025-04-21"))
            (some (Val.vStr "Exeter")) (some (Val.vStr "Jersey"))
            ["no"]).2.2 =
        closes (assignPilot sampleDB (some (Val.vStr "P0010001"))
            (some (Val.vStr "SI2207")) (some (Val.vStr "2025-04-21"))
            (some (Val.vStr "Exeter")) (some (Val.vStr "Jersey"))
            ["no"]).2.2 + 1 ∧
      opens (assignPilot sampleDB (some (Val.vStr "P0010001"))
            (some (Val.vStr "SI2207")) (some (Val.vStr "2025-04-21"))
            (some (Val.vStr "Exeter")) (some (Val.vStr "Jersey"))
            ["yes"]).2.2 =
        closes (assignPilot sampleDB (some (Val.vStr "P0010001"))
            (some (Val.vStr "SI2207")) (some (Val.vStr "2025-04-21"))
            (some (Val.vStr "Exeter")) (some (Val.vStr "Jersey"))
            ["yes"]).2.2 + 1 ∧
      opens (assignPilot sampleDB (some (Val.vStr "P0010001"))
            (some (Val.vStr "ZZ99")) (some (Val.vStr "2025-04-21"))
            (some (Val.vStr "Exeter")) (some (Val.vStr "Jersey"))
            ["yes"]).2.2 =
        closes (assignPilot sampleDB (some (Val.vStr "P0010001"))
            (some (Val.vStr "ZZ99")) (some (Val.vStr "2025-04-21"))
            (some (Val.vStr "Exeter")) (some (Val.vStr "Jersey"))
            ["yes"]).2.2 + 2 :=
  ⟨c8_connection_release_paths.2.2.1 (fun _ => false) sampleDB (Val.vInt 2)
      (some (Val.vStr "12:00")) none none (by decide) (fun _ => rfl),
   c8_connection_release_paths.2.2.2.1 (fun _ => false) sampleDB (Val.vInt 999)
      none none none (by decide),
   c8_connection_release_paths.2.2.2.2.1 (fun _ => true) sampleDB (Val.vInt 2)
      (some (Val.vStr "12:00")) none none (by decide) (by decide),
   c8_connection_release_paths.2.2.2.2.2.2.2.2.1 sampleDB (Val.vStr "P0010001")
      (Val.vStr "SI2207") (Val.vStr "2025-04-21") (Val.vStr "Exeter")
      (Val.vStr "Jersey") [] rfl rfl rfl rfl,
   c8_connection_release_paths.2.2.2.2.2.2.2.2.2.1 sampleDB
      (Val.vStr "P0010001") (Val.vStr "SI2207") (Val.vStr "2025-04-21")
      (Val.vStr "Exeter") (Val.vStr "Jersey") [] 6 [] rfl rfl rfl rfl
      (by decide),
   c8_connection_release_paths.2.2.2.2.2.2.2.2.2.2 sampleDB
      (Val.vStr "P0010001") (Val.vStr "ZZ99") (Val.vStr "2025-04-21")
      (Val.vStr "Exeter") (Val.vStr "Jersey") [] rfl rfl rfl rfl (by decide)⟩
